import Mathlib

/-!
Verification of the scanner / signing core of the parity-signer repository
(stores/ScannerStore plus the network-constants table).

The development shallowly embeds the JavaScript source: the `ScannerStore`
container state becomes an explicit `ScannerState` record, each store method
becomes a function from the old state to the new state, JS numbers become
`Nat`/`Int`, `Uint8Array`s become `List Nat`, JS objects with numeric keys
become key-sorted association lists (JS enumerates integer-like keys in
ascending numeric order), a JS `throw` becomes `Except.error`, and the
asynchronous external collaborators (account store, native signing backends,
address codec) become function parameters.

JavaScript-semantic points that the embedding reproduces faithfully:

* `setState` merging: inside one method the source reads the fields it
  destructured from `this.state` at entry, so later statements of the same
  call see the values from entry, not the values written by earlier
  `setState` calls of the same method invocation.  The embedding binds those
  destructured fields once at the top, exactly like the source.
* `missedFrames.splice(...)` mutates the array object that was current at
  entry; when the same call has already replaced `missedFrames` by a fresh
  deduplicated array, the splice is applied to the superseded array and its
  effect is lost.  The embedding therefore applies the removal only when the
  insertion branch did not run.
* strict equality `===` between a number (or `undefined`) and an object is
  always false, and two distinct freshly constructed `Uint8Array`s are never
  reference-equal; `jsStrictEq` reproduces this.
-/

set_option maxRecDepth 10000

deriving instance DecidableEq for Except

namespace ParitySigner

/-- JavaScript values as far as the reserved-byte check of `setPartData` needs
them: `partDataAsBytes[0]` is a number (or `undefined` when the array is
empty), and the literals `new Uint8Array([0x00])` / `new Uint8Array([0x7b])`
are objects. -/
inductive JSVal where
  | undef : JSVal
  | num : Nat → JSVal
  | u8a : List Nat → JSVal
  deriving Repr, DecidableEq

/-- JavaScript strict equality restricted to `JSVal`: `===` between values of
different runtime types is always false, numbers compare by value, and two
distinct freshly constructed `Uint8Array` objects compare by reference and so
are never equal (the source only ever compares against fresh literals). -/
def jsStrictEq : JSVal → JSVal → Bool
  | JSVal.num a, JSVal.num b => a == b
  | _, _ => false

/-- Indexing a byte array the JavaScript way: out-of-range access yields
`undefined` rather than failing. -/
def jsIndex (bytes : List Nat) (i : Nat) : JSVal :=
  match bytes.get? i with
  | some b => JSVal.num b
  | none => JSVal.undef

/-- JavaScript truthiness of the nullable number `latestFrame`: `null` and `0`
are falsy, every other frame index is truthy. -/
def jsTruthy : Option Nat → Bool
  | none => false
  | some 0 => false
  | some (_ + 1) => true

/-- Coercion of the nullable number `latestFrame` into arithmetic, as JS does
in `frame - latestFrame` and `i + latestFrame`: `null` coerces to `0`. -/
def jsNumOfNullable : Option Nat → Int
  | none => 0
  | some n => (n : Int)

/-- Modelled from the spec: the `mod` utility from util/numbers (that file is
not under src/); the spec's missed-frame formulas use the canonical
nonnegative remainder, `((n % m) + m) % m`. -/
def jsMod (n m : Int) : Int := (n % m + m) % m

/-- Deduplication with the semantics of `new Set([...])`: keep the first
occurrence of each element, in insertion order. -/
def dedupAux (seen : List Int) : List Int → List Int
  | [] => []
  | x :: xs => if x ∈ seen then dedupAux seen xs else x :: dedupAux (x :: seen) xs

/-- Elements of a list with duplicates removed, keeping first occurrences. -/
def dedup (l : List Int) : List Int := dedupAux [] l

/-- Insertion into a JS object keyed by frame indices.  JavaScript objects
enumerate integer-like keys in ascending numeric order, so the association
list is kept sorted by key; assigning an existing key replaces its value. -/
def objInsert (k : Nat) (v : List Nat) : List (Nat × List Nat) → List (Nat × List Nat)
  | [] => [(k, v)]
  | e :: rest =>
    if k < e.1 then (k, v) :: e :: rest
    else if k = e.1 then (k, v) :: rest
    else e :: objInsert k v rest

/-- Key lookup in the association list representing a JS object. -/
def objLookup (k : Nat) : List (Nat × List Nat) → Option (List Nat)
  | [] => none
  | e :: rest => if e.1 = k then some e.2 else objLookup k rest

/-- Numeric value of one hexadecimal character; characters outside
`[0-9a-fA-F]` count as zero (they never occur on the inputs considered). -/
def hexCharVal (c : Char) : Nat :=
  if 48 ≤ c.toNat ∧ c.toNat ≤ 57 then c.toNat - 48
  else if 97 ≤ c.toNat ∧ c.toNat ≤ 102 then c.toNat - 87
  else if 65 ≤ c.toNat ∧ c.toNat ≤ 70 then c.toNat - 55
  else 0

/-- Lowercase hexadecimal digit for a value below 16. -/
def hexDigitChar (n : Nat) : Char :=
  if n < 10 then Char.ofNat (48 + n) else Char.ofNat (87 + n)

/-- Two-character lowercase hexadecimal rendering of one byte. -/
def byteToHex (b : Nat) : List Char := [hexDigitChar (b / 16), hexDigitChar (b % 16)]

/-- Pairwise hexadecimal parsing, as `setPartData` does with
`parseInt(partData.substr(i * 2, 2), 16)` over `partData.length / 2` pairs. -/
def hexPairsToBytes : List Char → List Nat
  | c1 :: c2 :: rest => (16 * hexCharVal c1 + hexCharVal c2) :: hexPairsToBytes rest
  | _ => []

/-- Hex encoding of a byte array without a leading 0x, i.e. the value of
`u8aToHex(bytes, -1, false)` from the polkadot utilities. -/
def u8aToHexPlain (bs : List Nat) : String := String.mk (bs.flatMap byteToHex)

/-- Removal of a leading 0x from a hex string; models the polkadot utility
hexStripPrefix on the hex-string inputs that reach it in this store.
Written by pattern matching on the character list so that it reduces by
computation. -/
def hexStrip0x (s : String) : String :=
  match s.data with
  | '0' :: 'x' :: rest => String.mk rest
  | _ => s

/-- Parsing of a 0x-prefixed (or bare) hex string into bytes; models the
polkadot utility hexToU8a as used on the signature strings. -/
def hexToU8aJS (s : String) : List Nat := hexPairsToBytes (hexStrip0x s).data

/-- Modelled from the spec: `encodeNumber` from util/decoders (that file is
not under src/); section 6 of the spec fixes the multipart wire format as a
big-endian 16-bit total count and frame index. -/
def encodeNumber (n : Nat) : List Nat := [n / 256 % 256, n % 256]

/-- The multipart marker byte, `new Uint8Array([0])`. -/
def MULTIPART : List Nat := [0]

/-- The hardcoded sr25519 signature-scheme tag, `new Uint8Array([1])`. -/
def SIG_TYPE_SR25519 : List Nat := [1]

/-- Modelled from the spec: the appId constant handed to the biometric
signing capability (defined in the constants module outside src/); its
concrete value is irrelevant to every claim. -/
def APP_ID : String := "signer"

/-- Modelled from the spec: the `isAscii` predicate from util/strings (that
file is not under src/); per the spec the corresponding branch applies to
printable ASCII text. -/
def isAscii (s : String) : Bool := s.data.all (fun c => 32 ≤ c.toNat && c.toNat ≤ 126)

/-- Modelled from the spec: `asciiToHex` from util/decoders (that file is not
under src/); the spec says the text branch hex-encodes the ASCII bytes of the
message (the source strips any 0x afterwards, so the result is plain hex). -/
def asciiToHex (s : String) : String := u8aToHexPlain (s.data.map Char.toNat)

/-- Network protocol families from the constants module. -/
inductive NetworkProtocol where
  | ethereum
  | substrate
  | unknownProtocol
  deriving Repr, DecidableEq

/-- The SUBSTRATE_NETWORK_LIST from the constants module, reduced to the data
the store reads: genesis-hash key and address prefix value, in the
declaration order of `substrateNetworkBase` (JS preserves insertion order for
these non-integer string keys). -/
def SUBSTRATE_NETWORK_LIST : List (String × Nat) :=
  [ ("0xb0a8d493285c2df73290dfb7e61f870f17b41801197a149ca93654499ea3dafe", 2),
    ("0xe3777fa922cafbff200cadeaea1a76bd7898ad5b89f7848999058b50e715f636", 2),
    ("0x5e9679182f658e148f33d3f760f11179977398bb3da8d1f0bf7b267fe6b3ebb0", 2),
    ("0x0d667fd278ec412cd9fccdb066f09ed5b4cfd9c9afa9eb747213acb02b1e70bc", 42),
    ("0x14ad1761c377ea2aac9a1f7edc648c8b7b64f2f7a1667330f4b5eeec65ab8a3f", 42),
    ("0x0000000000000000000000000000000000000000000000000000000000000001", 36) ]

/-- The Ethereum chain-id keys present in `ethereumNetworkBase` (FRONTIER,
CLASSIC, ROPSTEN, GOERLI, KOVAN; RINKEBY is declared as a key constant but
has no network entry). -/
def ETHEREUM_NETWORK_KEYS : List String := ["1", "61", "3", "5", "42"]

/-- Protocol column of NETWORK_LIST, the merge of the substrate, ethereum and
unknown network tables from the constants module. -/
def NETWORK_LIST_protocols : List (String × NetworkProtocol) :=
  SUBSTRATE_NETWORK_LIST.map (fun kv => (kv.1, NetworkProtocol.substrate))
    ++ ETHEREUM_NETWORK_KEYS.map (fun k => (k, NetworkProtocol.ethereum))
    ++ [("unknown", NetworkProtocol.unknownProtocol)]

/-- Protocol lookup `NETWORK_LIST[networkKey].protocol`; `none` is the JS
case where `NETWORK_LIST[networkKey]` is `undefined` and reading `.protocol`
throws a TypeError. -/
def networkProtocolOf (networkKey : String) : Option NetworkProtocol :=
  (NETWORK_LIST_protocols.find? (fun kv => kv.1 == networkKey)).map (fun kv => kv.2)

/-- A structured extrinsic payload (GenericExtrinsicPayload).  The store only
ever calls `toU8a(true)` on it — the canonical SCALE body with the length
prefix suppressed — so the payload is modelled by those canonical bytes. -/
structure ExtrinsicPayload where
  body : List Nat
  deriving Repr, DecidableEq

/-- Runtime shapes `dataToSign` can have in the store: a structured
GenericExtrinsicPayload object, a raw byte array, or a JS string. -/
inductive DataToSign where
  | payload : ExtrinsicPayload → DataToSign
  | bytes : List Nat → DataToSign
  | str : String → DataToSign
  deriving Repr, DecidableEq

/-- The fields of an account record that the scanner store reads. -/
structure Account where
  address : String
  networkKey : String
  pinKey : String
  encryptedSeed : String
  path : String
  deriving Repr, DecidableEq

/-- The output of constructDataFromBytes (util/decoders, outside src/) as the
store consumes it: the multipart envelope fields, the sender address
`data.account`, and the pre-hash payload surfaced for display. -/
structure ParsedData where
  isMultipart : Bool
  frameCount : Nat
  currentFrame : Nat
  partData : String
  account : String
  preHash : Option ExtrinsicPayload
  deriving Repr, DecidableEq

/-- The scanner store state (the fields DEFAULT_STATE initialises, minus the
purely presentational ones no claim touches: message, recipient, tx,
txRequest, type and signedTxList are omitted). -/
structure ScannerState where
  busy : Bool
  completedFramesCount : Nat
  dataToSign : DataToSign
  isHash : Bool
  isOversized : Bool
  latestFrame : Option Nat
  missedFrames : List Int
  multipartComplete : Bool
  multipartData : List (Nat × List Nat)
  prehash : Option ExtrinsicPayload
  scanErrorMsg : String
  sender : Option Account
  signedData : String
  totalFrameCount : Nat
  unsignedData : Option ParsedData
  deriving Repr, DecidableEq

/-- DEFAULT_STATE from the source (restricted to the embedded fields). -/
def DEFAULT_STATE : ScannerState :=
  { busy := false
    completedFramesCount := 0
    dataToSign := DataToSign.str ""
    isHash := false
    isOversized := false
    latestFrame := none
    missedFrames := []
    multipartComplete := false
    multipartData := []
    prehash := none
    scanErrorMsg := ""
    sender := none
    signedData := ""
    totalFrameCount := 0
    unsignedData := none }

/-- Embedding of `ScannerStore.setPartData(frame, frameCount, partData)`.

The five `let`s at the top are the fields destructured from `this.state` at
entry; every later use of these names in the source reads those entry values
(in particular `totalFrameCount` stays `0` for the whole first call of a
session even though `setState` has recorded `frameCount`).

The reserved-byte check compares `partDataAsBytes[0]` — a number — against
the object literals `new Uint8Array([0x00])` and `new Uint8Array([0x7b])`
with `===`, so it can never fire; the `Except.error` branch is retained
exactly as written.

In the completion branch the source concatenates the stored payloads in
ascending key order, prepends the reconstructed frame-0 header and hands the
blob to `setParsedData(·, accountsStore, true)`; the embedding returns that
blob as the second component.  In the insertion branch, when the
missed-frames insertion fires, the later `splice` acts on the superseded
array and is lost (see the module comment), hence the `else` placement of
the removal.  The trailing update of `completedFramesCount` is the source's
final `setState`, which stores the count taken before any insertion. -/
def setPartData (frame frameCount : Nat) (partData : String) (s0 : ScannerState) :
    Except String (ScannerState × Option (List Nat)) :=
  let latestFrame := s0.latestFrame
  let missedFrames := s0.missedFrames
  let multipartComplete := s0.multipartComplete
  let multipartData := s0.multipartData
  let totalFrameCount := s0.totalFrameCount
  let s1 := if totalFrameCount = 0 then { s0 with totalFrameCount := frameCount } else s0
  let partDataAsBytes := hexPairsToBytes partData.data
  if jsStrictEq (jsIndex partDataAsBytes 0) (JSVal.u8a [0x00]) = true
      ∨ jsStrictEq (jsIndex partDataAsBytes 0) (JSVal.u8a [0x7b]) = true then
    Except.error "Error decoding invalid part data."
  else
    let completedFramesCount := multipartData.length
    if 0 < completedFramesCount ∧ 0 < totalFrameCount
        ∧ completedFramesCount = totalFrameCount ∧ multipartComplete = false then
      let s2 := { s1 with multipartComplete := true }
      let concatMultipartData := (multipartData.map Prod.snd).flatten
      let frameInfo := MULTIPART ++ encodeNumber totalFrameCount ++ encodeNumber frame
      let blob := frameInfo ++ concatMultipartData
      Except.ok ({ s2 with completedFramesCount := completedFramesCount }, some blob)
    else if completedFramesCount < totalFrameCount then
      let nextDataState := objInsert frame partDataAsBytes multipartData
      let missedFramesRange : Int :=
        jsMod ((frame : Int) - jsNumOfNullable latestFrame) (totalFrameCount : Int) - 1
      let s2 :=
        if jsTruthy latestFrame = true ∧ 1 ≤ missedFramesRange
            ∧ ¬ (frame : Int) ∈ missedFrames then
          let updatedMissedFrames :=
            (List.range missedFramesRange.toNat).map
              (fun i => jsMod ((i : Int) + jsNumOfNullable latestFrame) (totalFrameCount : Int))
          { s1 with missedFrames := dedup (missedFrames ++ updatedMissedFrames) }
        else if ((frame : Int) - 1) ∈ missedFrames then
          { s1 with missedFrames := missedFrames.erase ((frame : Int) - 1) }
        else s1
      let s3 := { s2 with latestFrame := some frame, multipartData := nextDataState }
      Except.ok ({ s3 with completedFramesCount := completedFramesCount }, none)
    else
      Except.ok ({ s1 with completedFramesCount := completedFramesCount }, none)

/-- A whole scan session: fold `setPartData` over a frame sequence starting
from DEFAULT_STATE, every submission carrying the same frame count, and
collect the blob (if any) each submission handed on for decoding.  `none`
would mean some submission threw. -/
def runMultipart (total : Nat) (seq : List (Nat × String)) :
    Option (ScannerState × List (Option (List Nat))) :=
  seq.foldlM
    (fun acc fp =>
      match setPartData fp.1 total fp.2 acc.1 with
      | Except.ok (s, blob) => some (s, acc.2 ++ [blob])
      | Except.error _ => none)
    (DEFAULT_STATE, [])

/-- JavaScript string coercion of a `dataToSign` value, as `hexStripPrefix`
sees it in the `isHash` branch: a string is itself, a `Uint8Array` coerces to
its comma-joined decimal bytes.  The payload case cannot reach this coercion
because the `instanceof GenericExtrinsicPayload` branch is tested first. -/
def dataToSignString : DataToSign → String
  | DataToSign.str s => s
  | DataToSign.bytes bs => String.intercalate "," (bs.map toString)
  | DataToSign.payload _ => ""

/-- Embedding of the signable-construction chain shared by
`signDataBiometric` (lines 418–431) and `signDataWithSuri` (lines 475–484)
for the non-Ethereum case: first a structured `GenericExtrinsicPayload` is
serialized with `toU8a(true)` (length prefix suppressed) and hex-encoded
without 0x; else an `isHash`-flagged value is used as hex with any 0x
stripped; else a raw byte array is hex-encoded and stripped; else printable
ASCII text is hex-encoded.  When no branch matches, `signable` is left
`undefined` — modelled as `none` — and the source proceeds to call the
signing backend with it; no error of any kind is raised here. -/
def buildSignableSubstrate (dataToSign : DataToSign) (isHash : Bool) : Option String :=
  match dataToSign with
  | DataToSign.payload p => some (u8aToHexPlain p.body)
  | d =>
    if isHash then some (hexStrip0x (dataToSignString d))
    else
      match d with
      | DataToSign.bytes bs => some (hexStrip0x ("0x" ++ u8aToHexPlain bs))
      | DataToSign.str str => if isAscii str then some (hexStrip0x (asciiToHex str)) else none
      | DataToSign.payload _ => none

/-- Embedding of `ScannerStore.signDataBiometric(legacy)` (lines 412–463).
The two native signing capabilities are passed as functions returning
`Except` (`Except.error` models a throw / rejected promise).  The outer
`Except` is an uncaught TypeError from `NETWORK_LIST[sender.networkKey]`
when the sender is absent or its network key is unknown.  The whole backend
invocation and result processing sit inside `try { ... } catch`, so a
backend failure is caught: the method returns `false` — modelled as
`Except.ok (false, s)` — leaving every state field, `signedData` and `busy`
included, untouched.  On success the Substrate result is tagged with the
hardcoded sr25519 byte and hex-encoded without 0x. -/
def signDataBiometric
    (secureEthkeySign : String → String → DataToSign → String → Except String String)
    (secureSubstrateSign : String → String → Option String → String → Bool → Except String String)
    (legacy : Bool) (s : ScannerState) : Except String (Bool × ScannerState) :=
  match s.sender with
  | none => Except.error "TypeError: sender is null"
  | some sender =>
    match networkProtocolOf sender.networkKey with
    | none => Except.error "TypeError: cannot read protocol of undefined"
    | some protocol =>
      if protocol = NetworkProtocol.ethereum then
        match secureEthkeySign APP_ID sender.pinKey s.dataToSign sender.encryptedSeed with
        | Except.error _ => Except.ok (false, s)
        | Except.ok signedData => Except.ok (true, { s with signedData := signedData })
      else
        let signable := buildSignableSubstrate s.dataToSign s.isHash
        match secureSubstrateSign APP_ID sender.pinKey signable sender.encryptedSeed legacy with
        | Except.error _ => Except.ok (false, s)
        | Except.ok signedData =>
          let sig := SIG_TYPE_SR25519 ++ hexToU8aJS ("0x" ++ signedData)
          Except.ok (true, { s with signedData := u8aToHexPlain sig })

/-- Embedding of `ScannerStore.signDataWithSuri(suri)` (lines 465–492).
There is no try/catch here: a backend throw / rejection propagates out of
the method uncaught — modelled as `Except.error` — and since the only
`setState` comes after the backend call, the store state is unchanged in
that case.  On Substrate success the raw signature hex is re-prefixed with
0x, parsed to bytes, tagged with the hardcoded sr25519 byte and hex-encoded
without 0x into `signedData`. -/
def signDataWithSuri
    (brainWalletSign : String → DataToSign → Except String String)
    (substrateSign : String → Option String → Except String String)
    (suri : String) (s : ScannerState) : Except String ScannerState :=
  match s.sender with
  | none => Except.error "TypeError: sender is null"
  | some sender =>
    match networkProtocolOf sender.networkKey with
    | none => Except.error "TypeError: cannot read protocol of undefined"
    | some protocol =>
      if protocol = NetworkProtocol.ethereum then
        match brainWalletSign suri s.dataToSign with
        | Except.error e => Except.error e
        | Except.ok signedData => Except.ok { s with signedData := signedData }
      else
        let signable := buildSignableSubstrate s.dataToSign s.isHash
        match substrateSign suri signable with
        | Except.error e => Except.error e
        | Except.ok signed =>
          let sig := SIG_TYPE_SR25519 ++ hexToU8aJS ("0x" ++ signed)
          Except.ok { s with signedData := u8aToHexPlain sig }

/-- The for-loop of `setParsedData` (lines 160–179): walk the substrate
network table in declaration order, re-encode the decoded public key under
each network's address prefix and query the account store, stopping at the
first hit.  The address codec (`decodeAddress`/`encodeAddress` from the
polkadot utilities) and the account store are external collaborators passed
as functions. -/
def fallbackLookupLoop (getAccountByAddress : String → Option Account)
    (encodeAddress : List Nat → Nat → String) (publicKey : List Nat) :
    List (String × Nat) → Option Account
  | [] => none
  | net :: rest =>
    match getAccountByAddress (encodeAddress publicKey net.2) with
    | some account => some account
    | none => fallbackLookupLoop getAccountByAddress encodeAddress publicKey rest

/-- Embedding of `ScannerStore.setParsedData(strippedData, accountsStore,
multipartComplete)` (lines 137–190) from the point where
`constructDataFromBytes` (util/decoders, outside src/) has produced
`parsedData`.  A multipart fragment (unless `multipartComplete` is set) is
delegated to `setPartData` and the method returns; the reassembled blob a
completing fragment hands on re-enters through `constructDataFromBytes` and
is not composed here.  Otherwise: an exact account-store hit stores the
request and falls through to `setPrehashPayload`; on a miss the fallback
loop runs, a hit substitutes the found account's address and returns
immediately (skipping `setPrehashPayload`), and if every network misses the
unknown-account error message is set with the original address and the
method falls through to `setPrehashPayload`. -/
def setParsedData (getAccountByAddress : String → Option Account)
    (decodeAddress : String → List Nat) (encodeAddress : List Nat → Nat → String)
    (parsedData : ParsedData) (multipartComplete : Bool) (s : ScannerState) : ScannerState :=
  if !multipartComplete && parsedData.isMultipart then
    match setPartData parsedData.currentFrame parsedData.frameCount parsedData.partData s with
    | Except.ok (s1, _) => s1
    | Except.error _ => s
  else
    match getAccountByAddress parsedData.account with
    | some _ => { s with unsignedData := some parsedData, prehash := parsedData.preHash }
    | none =>
      match fallbackLookupLoop getAccountByAddress encodeAddress
          (decodeAddress parsedData.account) SUBSTRATE_NETWORK_LIST with
      | some account =>
        { s with unsignedData := some { parsedData with account := account.address } }
      | none =>
        { s with
            scanErrorMsg := "No private key found for " ++ parsedData.account
              ++ " in your signer key storage."
            prehash := parsedData.preHash }

/-- A sample account on the Kusama network, used to instantiate theorems
with hypotheses at concrete inputs. -/
def kusamaAccount : Account :=
  { address := "FcxNWVy5RESDsErjwyZmPCW6Z8Y3fbfLzmou34YZTrbcraL"
    networkKey := "0xb0a8d493285c2df73290dfb7e61f870f17b41801197a149ca93654499ea3dafe"
    pinKey := "pin-key"
    encryptedSeed := "encrypted-seed"
    path := "//kusama" }

/-- Strict equality of any JS value against a fresh `Uint8Array` object is
false: numbers and `undefined` differ from it in type, and two distinct
objects are never reference-equal. -/
theorem jsStrictEq_u8a (v : JSVal) (bs : List Nat) : jsStrictEq v (JSVal.u8a bs) = false := by
  cases v <;> rfl

/-- The canonical nonnegative remainder of zero is zero. -/
theorem jsMod_zero (m : Int) : jsMod 0 m = 0 := by
  simp [jsMod]

/-- A key that `objLookup` finds is among the stored keys. -/
theorem objLookup_mem_keys {k : Nat} {v : List Nat} :
    ∀ {l : List (Nat × List Nat)}, objLookup k l = some v → k ∈ l.map Prod.fst := by
  intro l
  induction l with
  | nil => intro h; simp [objLookup] at h
  | cons e rest ih =>
    intro h
    by_cases he : e.1 = k
    · simp [he]
    · simp only [objLookup, if_neg he] at h
      simpa using Or.inr (ih h)

/-- Re-assigning a key of a key-sorted association object to the value it
already holds leaves the object unchanged. -/
theorem objInsert_lookup_self {k : Nat} {v : List Nat} {l : List (Nat × List Nat)}
    (hp : l.Pairwise (fun a b => a.1 < b.1)) (h : objLookup k l = some v) :
    objInsert k v l = l := by
  induction l with
  | nil => simp [objLookup] at h
  | cons e rest ih =>
    rcases List.pairwise_cons.mp hp with ⟨hhead, htail⟩
    by_cases he : e.1 = k
    · have hv : v = e.2 := by
        have h' := h
        simp only [objLookup, if_pos he] at h'
        exact (Option.some.injEq _ _ ▸ h').symm
      have h1 : ¬ k < e.1 := by omega
      simp only [objInsert, if_neg h1, if_pos he.symm]
      rw [hv, ← he]
    · have h' : objLookup k rest = some v := by
        simpa only [objLookup, if_neg he] using h
      have hkmem : k ∈ rest.map Prod.fst := objLookup_mem_keys h'
      have helt : e.1 < k := by
        rcases List.mem_map.mp hkmem with ⟨p, hpmem, hp1⟩
        have := hhead p hpmem
        omega
      have h1 : ¬ k < e.1 := by omega
      have h2 : ¬ k = e.1 := by omega
      simp [objInsert, h1, h2, ih htail h']

/-- C1: the claimed `InvalidFraming` rejection can never happen.  The
reserved-byte check of `setPartData` compares the number
`partDataAsBytes[0]` against the fresh objects `new Uint8Array([0x00])` and
`new Uint8Array([0x7b])` with `===`, which is false for every byte value, so
a frame-0 fragment payload beginning with 0x7B submitted to a fresh session
is accepted — no error is thrown — and the assembly state is mutated:
`totalFrameCount` is recorded from the frame header.  This contradicts both
the claim and the source's own comment that such part data "MUST NOT" occur. -/
theorem setPartData_accepts_reserved_first_byte :
    setPartData 0 3 "7b0102" DEFAULT_STATE
      = Except.ok ({ DEFAULT_STATE with totalFrameCount := 3 }, none) := rfl

/-- C2: the missed-frame bookkeeping does not behave as claimed on the
spec's own scenario.  For frames arriving [0, 2, 1] with totalFrameCount 3,
the code ends with missedFrames = [] after frame 2 (the first call of a
session drops its frame entirely — the stale destructured `totalFrameCount`
is 0 — so no `latestFrame` exists yet when frame 2 arrives) and
missedFrames = [2] after frame 1: the enumeration
`Array.from(new Array(range), (_, i) => mod(i + latestFrame, total))` starts
at `latestFrame` itself instead of `latestFrame + 1`, contradicting the
source's own comment that it enumerates the frames between the current frame
and `latestFrame`.  The claim demands {1} after frame 2 and {} after
frame 1. -/
theorem missedFrames_off_by_one_on_0_2_1 :
    ((runMultipart 3 [(0, "aa"), (2, "cc")]).map (fun p => p.1.missedFrames) = some [])
      ∧ ((runMultipart 3 [(0, "aa"), (2, "cc"), (1, "bb")]).map (fun p => p.1.missedFrames)
          = some [2]) :=
  ⟨rfl, rfl⟩

/-- C3: the claimed completion on the spec's scenario does not happen.  For
3 frames with totalFrameCount 3 arriving in order [0, 1, 2], the first call
of the session records `totalFrameCount` but drops frame 0's payload (the
destructured `totalFrameCount` is still 0, so neither branch stores it), and
the completion test compares `totalFrameCount` against the count of frames
stored before the current insertion; consequently after all three
submissions only frames 1 and 2 are stored, no submission hands a
reassembled blob on, and the session is not complete — the claim demands
`Completed` on the submission of frame 2. -/
theorem no_completion_on_0_1_2 :
    (runMultipart 3 [(0, "aa"), (1, "bb"), (2, "cc")]).map
        (fun p => (p.1.multipartComplete, p.1.multipartData.map Prod.fst, p.2))
      = some (false, [1, 2], [none, none, none]) := rfl

/-- C4: the claimed invariant is violated.  After frames [0, 1, 0] with
totalFrameCount 3 (frame 0 re-scanned because the session's first call
dropped it), the store holds missedFrames = [1] while the frames mapping has
keys [0, 1]: index 1 is simultaneously a stored frame and a "missed" frame,
because the skip enumeration starts at `latestFrame` — a frame that was just
stored — instead of `latestFrame + 1`. -/
theorem missedFrames_overlaps_stored_frames :
    (runMultipart 3 [(0, "aa"), (1, "bb"), (0, "aa")]).map
        (fun p => (p.1.missedFrames, p.1.multipartData.map Prod.fst))
      = some ([1], [0, 1]) := rfl

/-- C5 counterexample: re-submission of a previously seen frame index is not
idempotent in general.  After frames [0, 1, 2] with totalFrameCount 4, frame
1 is stored with payload bytes [0xbb] and missedFrames is empty; re-
submitting frame 1 with the identical payload changes missedFrames from []
to [2, 3], because the forward distance from `latestFrame = 2` back to frame
1 is positive and triggers the skip enumeration.  The claim asserts no state
change in missedFrames for every previously seen index. -/
theorem resubmission_changes_missedFrames :
    ((runMultipart 4 [(0, "aa"), (1, "bb"), (2, "cc")]).map
        (fun p => (p.1.missedFrames, objLookup 1 p.1.multipartData))
      = some ([], some [0xbb]))
      ∧ ((runMultipart 4 [(0, "aa"), (1, "bb"), (2, "cc"), (1, "bb")]).map
          (fun p => p.1.missedFrames)
        = some [2, 3]) :=
  ⟨rfl, rfl⟩

/-- C5 (amended): re-submitting the most recently received frame index
(`latestFrame`) with identical payload data — the common case of the camera
capturing the same QR frame twice in a row — while the session is still
filling (fewer stored frames than `totalFrameCount`) and the predecessor
index is not currently marked missed, overwrites the stored payload with
identical data and causes no state change in `missedFrames` (only the
`completedFramesCount` bookkeeping field is refreshed).  Re-submitting an
older previously seen index may instead add entries to `missedFrames`
through the skip-tracking logic.  The `Pairwise` hypothesis states that the
frames object has strictly ascending keys, which JavaScript guarantees for
integer-keyed objects. -/
theorem setPartData_resubmit_latest_idempotent
    (s : ScannerState) (f frameCount : Nat) (partData : String)
    (hl : s.latestFrame = some f)
    (hseen : objLookup f s.multipartData = some (hexPairsToBytes partData.data))
    (hsorted : s.multipartData.Pairwise (fun a b => a.1 < b.1))
    (hcount : s.multipartData.length < s.totalFrameCount)
    (hrm : ((f : Int) - 1) ∉ s.missedFrames) :
    setPartData f frameCount partData s
      = Except.ok ({ s with completedFramesCount := s.multipartData.length }, none) := by
  have h0 : ¬ s.totalFrameCount = 0 := by omega
  have hne : ¬ s.multipartData.length = s.totalFrameCount := by omega
  have hrange : jsMod ((f : Int) - jsNumOfNullable (some f)) (s.totalFrameCount : Int) - 1
      = -1 := by
    simp [jsNumOfNullable, jsMod_zero]
  simp only [setPartData, hl, if_neg h0, jsStrictEq_u8a, false_or, or_self]
  rw [if_neg (by simp)]
  rw [if_neg (fun hc => hne hc.2.2.1)]
  rw [if_pos hcount]
  rw [hrange]
  rw [if_neg (by intro hc; exact absurd hc.2.1 (by norm_num))]
  rw [if_neg hrm]
  rw [objInsert_lookup_self hsorted hseen, ← hl]

/-- C5 witness: the amended idempotence theorem applied to a concrete
mid-session state (frames 1 and 2 of 4 stored, frame 2 the latest) with
frame 2 re-submitted carrying its stored payload. -/
theorem setPartData_resubmit_latest_idempotent_witness :
    setPartData 2 4 "cc"
        { DEFAULT_STATE with
            totalFrameCount := 4
            latestFrame := some 2
            multipartData := [(1, [0xbb]), (2, [0xcc])] }
      = Except.ok
          ({ DEFAULT_STATE with
              totalFrameCount := 4
              latestFrame := some 2
              multipartData := [(1, [0xbb]), (2, [0xcc])]
              completedFramesCount := 2 }, none) :=
  setPartData_resubmit_latest_idempotent _ 2 4 "cc" rfl (by decide)
    (by decide) (by decide) (by decide)

/-- Hex digits round-trip through their character rendering. -/
theorem hexCharVal_hexDigitChar : ∀ n, n < 16 → hexCharVal (hexDigitChar n) = n := by decide

/-- The value of a hexadecimal character is below 16. -/
theorem hexCharVal_lt_16 (c : Char) : hexCharVal c < 16 := by
  unfold hexCharVal
  split
  · omega
  · split
    · omega
    · split
      · omega
      · omega

/-- Pairwise hexadecimal parsing only produces bytes. -/
theorem hexPairsToBytes_lt : ∀ (l : List Char) (b : Nat), b ∈ hexPairsToBytes l → b < 256
  | [], b, h => by simp [hexPairsToBytes] at h
  | [_], b, h => by simp [hexPairsToBytes] at h
  | c1 :: c2 :: rest, b, h => by
    simp only [hexPairsToBytes, List.mem_cons] at h
    rcases h with h | h
    · have h1 := hexCharVal_lt_16 c1
      have h2 := hexCharVal_lt_16 c2
      omega
    · exact hexPairsToBytes_lt rest b h

/-- Byte lists round-trip through plain hex encoding. -/
theorem hexPairsToBytes_byteToHex : ∀ (bs : List Nat), (∀ b ∈ bs, b < 256) →
    hexPairsToBytes (bs.flatMap byteToHex) = bs
  | [], _ => rfl
  | b :: rest, h => by
    have hb : b < 256 := h b (List.mem_cons_self b rest)
    have hd : b / 16 < 16 := by omega
    have hm : b % 16 < 16 := by omega
    have ih := hexPairsToBytes_byteToHex rest (fun x hx => h x (List.mem_cons_of_mem b hx))
    show hexPairsToBytes
        (hexDigitChar (b / 16) :: hexDigitChar (b % 16) :: rest.flatMap byteToHex) = b :: rest
    simp only [hexPairsToBytes]
    rw [hexCharVal_hexDigitChar _ hd, hexCharVal_hexDigitChar _ hm, ih]
    congr 1
    omega

/-- C6 counterexample: when none of the four signable branches matches —
here a non-ASCII message string with `isHash` unset on a Substrate sender —
no `UnsignableData` (or any other) error is raised: `signable` stays
`undefined` and signing proceeds, invoking the backend with it.  The chosen
backend succeeds only when handed `none`, and the call indeed returns a
successful tagged signature instead of the failure the claim requires. -/
theorem unsignable_data_error_not_raised :
    buildSignableSubstrate (DataToSign.str "é") false = none
      ∧ signDataWithSuri (fun _ _ => Except.error "unused")
          (fun _ signable => if signable = none then Except.ok "ab" else Except.error "unused")
          "suri"
          { DEFAULT_STATE with sender := some kusamaAccount, dataToSign := DataToSign.str "é" }
        = Except.ok
            { DEFAULT_STATE with
                sender := some kusamaAccount
                dataToSign := DataToSign.str "é"
                signedData := "01ab" } :=
  ⟨rfl, by decide⟩

/-- C6 (amended): for a non-Ethereum request at most one of the four
signable branches applies (the first matching one in source order), and when
none matches — a message string that is not ASCII, with `isHash` unset —
the signable is left undefined and the coordinator proceeds to invoke the
signing backend with the undefined signable; no `UnsignableData` error
exists or is raised. -/
theorem buildSignable_no_match_proceeds
    (str : String) (h1 : isAscii str = false)
    (s : ScannerState) (sender : Account)
    (hs : s.sender = some sender)
    (hp : networkProtocolOf sender.networkKey = some NetworkProtocol.substrate)
    (hd : s.dataToSign = DataToSign.str str) (hh : s.isHash = false)
    (bws : String → DataToSign → Except String String)
    (subSign : String → Option String → Except String String) (suri : String) :
    buildSignableSubstrate s.dataToSign s.isHash = none
      ∧ signDataWithSuri bws subSign suri s
        = (match subSign suri none with
           | Except.error e => Except.error e
           | Except.ok signed =>
             Except.ok { s with
               signedData := u8aToHexPlain (SIG_TYPE_SR25519 ++ hexToU8aJS ("0x" ++ signed)) }) := by
  have hb : buildSignableSubstrate s.dataToSign s.isHash = none := by
    rw [hd, hh]
    simp [buildSignableSubstrate, h1]
  refine ⟨hb, ?_⟩
  simp only [signDataWithSuri, hs, hp]
  rw [if_neg (by decide)]
  rw [hb]

/-- C6 witness: the amended theorem applied to a non-ASCII message on a
Kusama sender with a rejecting backend. -/
theorem buildSignable_no_match_proceeds_witness :
    buildSignableSubstrate (DataToSign.str "é") false = none
      ∧ signDataWithSuri (fun _ _ => Except.error "backend rejected")
          (fun _ _ => Except.error "backend rejected") "suri"
          { DEFAULT_STATE with sender := some kusamaAccount, dataToSign := DataToSign.str "é" }
        = Except.error "backend rejected" :=
  buildSignable_no_match_proceeds "é" (by decide)
    { DEFAULT_STATE with sender := some kusamaAccount, dataToSign := DataToSign.str "é" }
    kusamaAccount rfl rfl rfl rfl
    (fun _ _ => Except.error "backend rejected")
    (fun _ _ => Except.error "backend rejected") "suri"

/-- C7: when the signing backend throws or rejects, the coordinator reports
failure and mutates nothing.  `signDataBiometric` catches the rejection and
returns `false` with the state exactly as before — so `signedData` is still
unset and `busy` is still true — and `signDataWithSuri` lets the rejection
propagate before its only `setState`, again leaving the state untouched.
Neither invokes the backend again. -/
theorem signing_backend_failure_leaves_state
    (s : ScannerState) (sender : Account) (p : NetworkProtocol)
    (hs : s.sender = some sender)
    (hp : networkProtocolOf sender.networkKey = some p)
    (hb : s.busy = true)
    (ethSignF : String → String → DataToSign → String → Except String String)
    (subSignF : String → String → Option String → String → Bool → Except String String)
    (bws : String → DataToSign → Except String String)
    (subSign : String → Option String → Except String String)
    (legacy : Bool) (suri : String) (errB errS : String)
    (hfb : ∀ a b c d, ethSignF a b c d = Except.error errB)
    (hfs : ∀ a b c d l, subSignF a b c d l = Except.error errB)
    (hfw1 : ∀ a b, bws a b = Except.error errS)
    (hfw2 : ∀ a b, subSign a b = Except.error errS) :
    signDataBiometric ethSignF subSignF legacy s = Except.ok (false, s)
      ∧ (signDataBiometric ethSignF subSignF legacy s).map
          (fun r => (r.2.busy, r.2.signedData)) = Except.ok (true, s.signedData)
      ∧ signDataWithSuri bws subSign suri s = Except.error errS := by
  have h1 : signDataBiometric ethSignF subSignF legacy s = Except.ok (false, s) := by
    simp only [signDataBiometric, hs, hp]
    by_cases hpe : p = NetworkProtocol.ethereum
    · rw [if_pos hpe, hfb]
    · rw [if_neg hpe, hfs]
  refine ⟨h1, ?_, ?_⟩
  · rw [h1]
    simp [Except.map, hb]
  · simp only [signDataWithSuri, hs, hp]
    by_cases hpe : p = NetworkProtocol.ethereum
    · rw [if_pos hpe, hfw1]
    · rw [if_neg hpe, hfw2]

/-- C7 witness: both signing entry points applied to a busy Kusama state
with constantly rejecting backends. -/
theorem signing_backend_failure_leaves_state_witness :
    signDataBiometric (fun _ _ _ _ => Except.error "boom")
        (fun _ _ _ _ _ => Except.error "boom") false
        { DEFAULT_STATE with sender := some kusamaAccount, busy := true }
      = Except.ok (false, { DEFAULT_STATE with sender := some kusamaAccount, busy := true })
      ∧ (signDataBiometric (fun _ _ _ _ => Except.error "boom")
          (fun _ _ _ _ _ => Except.error "boom") false
          { DEFAULT_STATE with sender := some kusamaAccount, busy := true }).map
          (fun r => (r.2.busy, r.2.signedData)) = Except.ok (true, "")
      ∧ signDataWithSuri (fun _ _ => Except.error "rejected")
          (fun _ _ => Except.error "rejected") "suri"
          { DEFAULT_STATE with sender := some kusamaAccount, busy := true }
        = Except.error "rejected" :=
  signing_backend_failure_leaves_state _ kusamaAccount NetworkProtocol.substrate rfl rfl rfl
    _ _ _ _ false "suri" "boom" "rejected"
    (fun _ _ _ _ => rfl) (fun _ _ _ _ _ => rfl) (fun _ _ => rfl) (fun _ _ => rfl)

/-- C8: on a successful Substrate signing the final `signedData` is the hex
encoding, without 0x, of the hardcoded one-byte sr25519 scheme tag (0x01)
followed by the raw signature bytes the backend returned — for both the
SURI and the biometric entry points.  The round-trip conjuncts re-parse the
produced hex and recover exactly `tag byte :: raw signature bytes`, and the
tag is the constant `[1]` independent of the account's actual scheme. -/
theorem substrate_signature_tagging
    (s : ScannerState) (sender : Account)
    (hs : s.sender = some sender)
    (hp : networkProtocolOf sender.networkKey = some NetworkProtocol.substrate)
    (bws : String → DataToSign → Except String String)
    (subSign : String → Option String → Except String String)
    (ethSignF : String → String → DataToSign → String → Except String String)
    (subSignF : String → String → Option String → String → Bool → Except String String)
    (legacy : Bool) (suri : String) (sigHexS sigHexB : String)
    (hok1 : subSign suri (buildSignableSubstrate s.dataToSign s.isHash) = Except.ok sigHexS)
    (hok2 : subSignF APP_ID sender.pinKey (buildSignableSubstrate s.dataToSign s.isHash)
        sender.encryptedSeed legacy = Except.ok sigHexB) :
    SIG_TYPE_SR25519 = [1]
      ∧ (signDataWithSuri bws subSign suri s
          = Except.ok { s with
              signedData := u8aToHexPlain (SIG_TYPE_SR25519 ++ hexToU8aJS ("0x" ++ sigHexS)) }
        ∧ hexPairsToBytes
            (u8aToHexPlain (SIG_TYPE_SR25519 ++ hexToU8aJS ("0x" ++ sigHexS))).data
          = SIG_TYPE_SR25519 ++ hexToU8aJS ("0x" ++ sigHexS))
      ∧ (signDataBiometric ethSignF subSignF legacy s
          = Except.ok (true, { s with
              signedData := u8aToHexPlain (SIG_TYPE_SR25519 ++ hexToU8aJS ("0x" ++ sigHexB)) })
        ∧ hexPairsToBytes
            (u8aToHexPlain (SIG_TYPE_SR25519 ++ hexToU8aJS ("0x" ++ sigHexB))).data
          = SIG_TYPE_SR25519 ++ hexToU8aJS ("0x" ++ sigHexB)) := by
  have hround : ∀ hx : String,
      hexPairsToBytes (u8aToHexPlain (SIG_TYPE_SR25519 ++ hexToU8aJS hx)).data
        = SIG_TYPE_SR25519 ++ hexToU8aJS hx := by
    intro hx
    have hlt : ∀ b ∈ SIG_TYPE_SR25519 ++ hexToU8aJS hx, b < 256 := by
      intro b hbm
      rcases List.mem_append.mp hbm with h | h
      · simp [SIG_TYPE_SR25519] at h
        omega
      · exact hexPairsToBytes_lt _ b h
    exact hexPairsToBytes_byteToHex _ hlt
  refine ⟨rfl, ⟨?_, hround _⟩, ⟨?_, hround _⟩⟩
  · simp only [signDataWithSuri, hs, hp]
    rw [if_neg (by decide), hok1]
  · simp only [signDataBiometric, hs, hp]
    rw [if_neg (by decide), hok2]

/-- C8 witness: the SURI entry point applied to a Kusama state whose backend
returns the signature hex "ab" (the byte 0xAB); the resulting `signedData`
is the plain hex of tag-then-signature — concretely "01ab" — and re-parses
to exactly the tag byte followed by the raw signature byte. -/
theorem substrate_signature_tagging_witness :
    signDataWithSuri (fun _ _ => Except.error "unused") (fun _ _ => Except.ok "ab") "suri"
        { DEFAULT_STATE with sender := some kusamaAccount }
      = Except.ok { DEFAULT_STATE with
          sender := some kusamaAccount
          signedData := u8aToHexPlain (SIG_TYPE_SR25519 ++ hexToU8aJS ("0x" ++ "ab")) }
      ∧ hexPairsToBytes (u8aToHexPlain (SIG_TYPE_SR25519 ++ hexToU8aJS ("0x" ++ "ab"))).data
          = SIG_TYPE_SR25519 ++ hexToU8aJS ("0x" ++ "ab")
      ∧ u8aToHexPlain (SIG_TYPE_SR25519 ++ hexToU8aJS ("0x" ++ "ab")) = "01ab" := by
  have h := substrate_signature_tagging
    { DEFAULT_STATE with sender := some kusamaAccount } kusamaAccount rfl rfl
    (fun _ _ => Except.error "unused") (fun _ _ => Except.ok "ab")
    (fun _ _ _ _ => Except.error "unused") (fun _ _ _ _ _ => Except.ok "ab")
    false "suri" "ab" "ab" rfl rfl
  exact ⟨h.2.1.1, h.2.1.2, by decide⟩

/-- The fallback loop returns the first account-store hit, walking the
network list in order. -/
theorem fallbackLookupLoop_eq_findSome
    (lookup : String → Option Account) (encodeAddr : List Nat → Nat → String)
    (publicKey : List Nat) :
    ∀ l : List (String × Nat),
      fallbackLookupLoop lookup encodeAddr publicKey l
        = l.findSome? (fun net => lookup (encodeAddr publicKey net.2)) := by
  intro l
  induction l with
  | nil => rfl
  | cons e rest ih =>
    simp only [fallbackLookupLoop, List.findSome?]
    cases lookup (encodeAddr publicKey e.2) <;> simp [ih]

/-- C9: when the decoded sender address has no exact match in the account
store, `setParsedData` re-encodes the address's public key under each known
Substrate network prefix and queries the store, in exactly the declaration
order of the network table (the `findSome?` characterisation).  If some
re-encoding hits, the first matching account's address is substituted into
the request, the request is stored, and no error message is set (the state
changes only in `unsignedData`); if every re-encoding misses, the
user-visible unknown-account error is set with the original address. -/
theorem cross_network_account_resolution
    (lookup : String → Option Account) (decodeAddr : String → List Nat)
    (encodeAddr : List Nat → Nat → String)
    (pd : ParsedData) (mc : Bool) (s : ScannerState)
    (hnm : mc = true ∨ pd.isMultipart = false)
    (hmiss : lookup pd.account = none) :
    (fallbackLookupLoop lookup encodeAddr (decodeAddr pd.account) SUBSTRATE_NETWORK_LIST
        = SUBSTRATE_NETWORK_LIST.findSome?
            (fun net => lookup (encodeAddr (decodeAddr pd.account) net.2)))
      ∧ (∀ account,
          fallbackLookupLoop lookup encodeAddr (decodeAddr pd.account) SUBSTRATE_NETWORK_LIST
              = some account →
            setParsedData lookup decodeAddr encodeAddr pd mc s
              = { s with unsignedData := some { pd with account := account.address } })
      ∧ (fallbackLookupLoop lookup encodeAddr (decodeAddr pd.account) SUBSTRATE_NETWORK_LIST
            = none →
          setParsedData lookup decodeAddr encodeAddr pd mc s
            = { s with
                scanErrorMsg := "No private key found for " ++ pd.account
                  ++ " in your signer key storage."
                prehash := pd.preHash }) := by
  have hcond : (!mc && pd.isMultipart) = false := by
    rcases hnm with h | h <;> simp [h]
  refine ⟨fallbackLookupLoop_eq_findSome _ _ _ _, ?_, ?_⟩
  · intro account hacc
    simp only [setParsedData, hcond, Bool.false_eq_true, if_false, hmiss, hacc]
  · intro hnone
    simp only [setParsedData, hcond, Bool.false_eq_true, if_false, hmiss, hnone]

/-- C9 witness: the resolution theorem applied to a store that only knows
the Kusama re-encoding of the scanned address: the request is stored with
the resolved account's address substituted and no error is set. -/
theorem cross_network_account_resolution_witness :
    setParsedData
        (fun a => if a = "enc-2" then some kusamaAccount else none)
        (fun _ => [0]) (fun _ p => "enc-" ++ toString p)
        { isMultipart := false, frameCount := 0, currentFrame := 0, partData := ""
          account := "unknown-addr", preHash := none }
        false DEFAULT_STATE
      = { DEFAULT_STATE with
          unsignedData := some
            { isMultipart := false, frameCount := 0, currentFrame := 0, partData := ""
              account := kusamaAccount.address, preHash := none } } :=
  (cross_network_account_resolution
      (fun a => if a = "enc-2" then some kusamaAccount else none)
      (fun _ => [0]) (fun _ p => "enc-" ++ toString p)
      { isMultipart := false, frameCount := 0, currentFrame := 0, partData := ""
        account := "unknown-addr", preHash := none }
      false DEFAULT_STATE (Or.inr rfl) (by decide)).2.1 kusamaAccount (by decide)

/-- C10: `setPartData`'s caller `setParsedData` writes the `prehash` field
only on the exact-address-match path and on the all-lookups-missed error
path (in both it stores `parsedData.preHash` via `setPrehashPayload`); when
the sender is found through the cross-network fallback, the method returns
immediately after storing the unsigned request, leaving `prehash` exactly
as it was. -/
theorem prehash_only_on_match_and_error_paths
    (lookup : String → Option Account) (decodeAddr : String → List Nat)
    (encodeAddr : List Nat → Nat → String)
    (pd : ParsedData) (mc : Bool) (s : ScannerState)
    (hnm : mc = true ∨ pd.isMultipart = false) :
    (∀ account, lookup pd.account = some account →
        (setParsedData lookup decodeAddr encodeAddr pd mc s).prehash = pd.preHash
          ∧ (setParsedData lookup decodeAddr encodeAddr pd mc s).unsignedData = some pd)
      ∧ (lookup pd.account = none →
          ∀ account,
            fallbackLookupLoop lookup encodeAddr (decodeAddr pd.account)
                SUBSTRATE_NETWORK_LIST = some account →
              (setParsedData lookup decodeAddr encodeAddr pd mc s).prehash = s.prehash
                ∧ (setParsedData lookup decodeAddr encodeAddr pd mc s).unsignedData
                    = some { pd with account := account.address })
      ∧ (lookup pd.account = none →
          fallbackLookupLoop lookup encodeAddr (decodeAddr pd.account)
              SUBSTRATE_NETWORK_LIST = none →
            (setParsedData lookup decodeAddr encodeAddr pd mc s).prehash = pd.preHash
              ∧ (setParsedData lookup decodeAddr encodeAddr pd mc s).scanErrorMsg
                  = "No private key found for " ++ pd.account
                    ++ " in your signer key storage.") := by
  have hcond : (!mc && pd.isMultipart) = false := by
    rcases hnm with h | h <;> simp [h]
  refine ⟨?_, ?_, ?_⟩
  · intro account hacc
    simp only [setParsedData, hcond, Bool.false_eq_true, if_false, hacc]
    exact ⟨trivial, trivial⟩
  · intro hmiss account hacc
    simp only [setParsedData, hcond, Bool.false_eq_true, if_false, hmiss, hacc]
    exact ⟨trivial, trivial⟩
  · intro hmiss hnone
    simp only [setParsedData, hcond, Bool.false_eq_true, if_false, hmiss, hnone]
    exact ⟨trivial, trivial⟩

/-- C10 witness: on an exact account-store hit the stored pre-hash payload
equals the parsed request's `preHash`, and on the fallback path of the C9
witness state the field would be untouched; here the exact-match conjunct is
instantiated with a store that knows the address directly. -/
theorem prehash_only_on_match_and_error_paths_witness :
    (setParsedData (fun _ => some kusamaAccount) (fun _ => [0]) (fun _ _ => "enc")
        { isMultipart := false, frameCount := 0, currentFrame := 0, partData := ""
          account := "addr", preHash := some { body := [5] } }
        false DEFAULT_STATE).prehash = some { body := [5] }
      ∧ (setParsedData (fun _ => some kusamaAccount) (fun _ => [0]) (fun _ _ => "enc")
          { isMultipart := false, frameCount := 0, currentFrame := 0, partData := ""
            account := "addr", preHash := some { body := [5] } }
          false DEFAULT_STATE).unsignedData
        = some { isMultipart := false, frameCount := 0, currentFrame := 0, partData := ""
                 account := "addr", preHash := some { body := [5] } } :=
  (prehash_only_on_match_and_error_paths (fun _ => some kusamaAccount)
      (fun _ => [0]) (fun _ _ => "enc")
      { isMultipart := false, frameCount := 0, currentFrame := 0, partData := ""
        account := "addr", preHash := some { body := [5] } }
      false DEFAULT_STATE (Or.inr rfl)).1 kusamaAccount rfl

end ParitySigner
